import Mathlib

/-!
Shallow embedding of `src/script.py` (a pack-drafting synergy evaluator)
and verification of its specification claims.

Python sets are modelled as `Finset`, `frozenset`s of creature types as
`Finset CreatureType`, and fallible Python evaluation (TypeError from
`str.join` over non-string items, AttributeError from missing dataclass
fields) as `Except PyErr`.  Stateful code (the module-level match sets,
the Monte-Carlo counters) is embedded by explicit state passing, and the
`random` module is modelled as an injected oracle.
-/

/-- Python runtime errors that the embedded code can raise. -/
inductive PyErr where
  | typeError
  | attributeError
deriving DecidableEq, Repr

/-- The five colour tags (`class Colour(enum.Enum)`). -/
inductive Colour where
  | WHITE
  | BLUE
  | BLACK
  | RED
  | GREEN
deriving DecidableEq, Repr

/-- The ten creature-type tags (`class CreatureType(enum.Enum)`). -/
inductive CreatureType where
  | BIRD
  | RAT
  | LIZARD
  | RACCOON
  | RABBIT
  | BAT
  | OTTER
  | SQUIRREL
  | MOUSE
  | FROG
deriving DecidableEq, Repr

/-- The four-level verdict (`class Playability(enum.Enum)`). -/
inductive Playability where
  | UNPLAYABLE
  | WEAK
  | MEDIUM
  | STRONG
deriving DecidableEq, Repr

/-- The `Pack` dataclass: a name, a set of colours, a set of creature types. -/
structure Pack where
  name : String
  colours : Finset Colour
  creature_types : Finset CreatureType
deriving DecidableEq

/-- `Pack.matching_types`: the creature types of `self` that also occur in
`pack_two` (a set comprehension filtering `self.creature_types`). -/
def matching_types (self pack_two : Pack) : Finset CreatureType :=
  self.creature_types.filter (fun creature_type => creature_type ∈ pack_two.creature_types)

/-- `Pack.matching_colours`: the colours of `self` that also occur in `pack_two`. -/
def matching_colours (self pack_two : Pack) : Finset Colour :=
  self.colours.filter (fun colour => colour ∈ pack_two.colours)

/-- `Pack.synergistic_types`: first keep the synergy pairs having some
creature type of `pack_two` (`matches_with_pack_two`), then out of those
keep the pairs having some creature type of `self`. -/
def synergistic_types (self pack_two : Pack)
    (synergistic_type_pairs : Finset (Finset CreatureType)) :
    Finset (Finset CreatureType) :=
  let matches_with_pack_two :=
    synergistic_type_pairs.filter
      (fun type_pair => ∃ creature_type ∈ pack_two.creature_types, creature_type ∈ type_pair)
  matches_with_pack_two.filter
    (fun type_pair => ∃ creature_type ∈ self.creature_types, creature_type ∈ type_pair)

/-- `Pack.pair_playability`: the four-way decision table over colour overlap,
type/synergy overlap, and the maximum colour count of the two packs.
Python truthiness of a set is `Finset.Nonempty`. -/
def pair_playability (self pack_two : Pack)
    (synergistic_type_pairs : Finset (Finset CreatureType)) : Playability :=
  if (matching_colours self pack_two).Nonempty then
    if (matching_types self pack_two).Nonempty ∨
        (synergistic_types self pack_two synergistic_type_pairs).Nonempty then
      Playability.STRONG
    else
      if max self.colours.card pack_two.colours.card = 1 then
        Playability.MEDIUM
      else
        Playability.WEAK
  else
    if (matching_types self pack_two).Nonempty ∨
        (synergistic_types self pack_two synergistic_type_pairs).Nonempty then
      if max self.colours.card pack_two.colours.card = 1 then
        Playability.MEDIUM
      else
        Playability.WEAK
    else
      if max self.colours.card pack_two.colours.card = 1 then
        Playability.WEAK
      else
        Playability.UNPLAYABLE

/-- Concrete packs used to instantiate theorems with hypotheses. -/
def packA : Pack :=
  ⟨"A", {Colour.WHITE}, {CreatureType.BIRD}⟩

def packB : Pack :=
  ⟨"B", {Colour.BLUE}, {CreatureType.RAT}⟩

def packC : Pack :=
  ⟨"C", {Colour.WHITE, Colour.BLUE}, {CreatureType.BIRD, CreatureType.MOUSE}⟩

def packD : Pack :=
  ⟨"D", {Colour.RED}, {CreatureType.BAT}⟩

/-- Colour-less packs: the only packs whose Python display label does not
raise, used to exercise the lookup paths of the evaluator. -/
def packE : Pack :=
  ⟨"E", ∅, {CreatureType.OTTER}⟩

def packF : Pack :=
  ⟨"F", ∅, {CreatureType.FROG}⟩

/-- Python `"".join(colours)` over a set of `Colour` values, as in
`Pack.__str__`.  `str.join` requires every item to be a `str` instance;
`Colour` enum members are not, so the join raises TypeError as soon as the
set has an element, and only the empty set joins to the empty string. -/
def joinColours (colours : Finset Colour) : Except PyErr String :=
  if colours = ∅ then Except.ok ("") else Except.error PyErr.typeError

/-- `Pack.__str__`: the f-string interpolating the joined colours, a space,
and the pack name. -/
def packStr (p : Pack) : Except PyErr String :=
  (joinColours p.colours).map (fun cs => cs ++ " " ++ p.name)

/-- The four module-level match sets `STRONG_MATCHES`, `MEDIUM_MATCHES`,
`WEAK_MATCHES`, `UNPLAYABLE_MATCHES`, passed explicitly instead of as
global mutable state. -/
structure MatchSets where
  strong : Finset (Finset String)
  medium : Finset (Finset String)
  weak : Finset (Finset String)
  unplayable : Finset (Finset String)
deriving DecidableEq

/-- The synergy-index loop of `initialize` in the source: every pack with
exactly two creature types and exactly one colour contributes its type
pair (`SYNERGISTIC_TYPE_PAIRS`). -/
def buildSynergy (packs : List Pack) : Finset (Finset CreatureType) :=
  packs.foldl
    (fun s p =>
      if p.creature_types.card = 2 ∧ p.colours.card = 1 then insert p.creature_types s else s)
    ∅

/-- One `if playability == X: SET.add(frozenset(\x7bstr(p1), str(p2)\x7d))`
block of `initialize`: the labels are only computed when the guard holds. -/
def addIf (cond : Prop) [Decidable cond] (s : Finset (Finset String)) (p1 p2 : Pack) :
    Except PyErr (Finset (Finset String)) :=
  if cond then
    Except.bind (packStr p1) (fun l1 =>
      Except.bind (packStr p2) (fun l2 =>
        Except.ok (insert ({l1, l2} : Finset String) s)))
  else Except.ok s

/-- The body of the pair loop of `initialize`: classify one pair, then run
the four conditional adds in sequence. -/
def recordPair (S : Finset (Finset CreatureType)) (st : MatchSets) (p1 p2 : Pack) :
    Except PyErr MatchSets :=
  let playability := pair_playability p1 p2 S
  Except.bind (addIf (playability = Playability.STRONG) st.strong p1 p2) (fun strong =>
    Except.bind (addIf (playability = Playability.MEDIUM) st.medium p1 p2) (fun medium =>
      Except.bind (addIf (playability = Playability.WEAK) st.weak p1 p2) (fun weak =>
        Except.bind (addIf (playability = Playability.UNPLAYABLE) st.unplayable p1 p2)
          (fun unplayable => Except.ok ⟨strong, medium, weak, unplayable⟩))))

/-- `for pack_two in remaining_packs` of `initialize`. -/
def recordLoop (S : Finset (Finset CreatureType)) (p : Pack) :
    MatchSets → List Pack → Except PyErr MatchSets
  | st, [] => Except.ok st
  | st, q :: rest =>
      Except.bind (recordPair S st p q) (fun st2 => recordLoop S p st2 rest)

/-- The outer pair loop of `initialize`: each pack against the packs after
it (`PACKS[number:]`; the `number > len(PACKS)` break never fires). -/
def pairLoop (S : Finset (Finset CreatureType)) :
    MatchSets → List Pack → Except PyErr MatchSets
  | st, [] => Except.ok st
  | st, p :: rest =>
      Except.bind (recordLoop S p st rest) (fun st2 => pairLoop S st2 rest)

/-- The `initialize` function of the source: build the synergy index over
all packs, then classify and record every unordered pair of distinct packs.
Returns the four match sets together with the synergy index. -/
def buildMatchIndex (packs : List Pack) :
    Except PyErr (MatchSets × Finset (Finset CreatureType)) :=
  let S := buildSynergy packs
  (pairLoop S ⟨∅, ∅, ∅, ∅⟩ packs).map (fun st => (st, S))

/-- Per-trial verdict counters (`DraftResult` dataclass). -/
structure DraftResult where
  strong : Nat
  medium : Nat
  weak : Nat
  unplayable : Nat
deriving DecidableEq

/-- The value returned by `DraftStrategy.draft`: either a flat list of packs
or an `(anchor, rest)` tuple; `get_draft_result` dispatches on the runtime
type. -/
inductive DraftSel where
  | flat (packs : List Pack)
  | anchorRest (anchor : Pack) (rest : List Pack)

/-- One lookup step of `get_draft_result`: label the two packs, then walk
the `if pair in STRONG_MATCHES / elif ... / elif ...` chain; a pair found in
none of the four sets falls off the chain and leaves the counters unchanged. -/
def tallyPair (m : MatchSets) (dr : DraftResult) (p1 p2 : Pack) : Except PyErr DraftResult :=
  Except.bind (packStr p1) (fun l1 =>
    Except.bind (packStr p2) (fun l2 =>
      let pair : Finset String := {l1, l2}
      if pair ∈ m.strong then Except.ok { dr with strong := dr.strong + 1 }
      else if pair ∈ m.medium then Except.ok { dr with medium := dr.medium + 1 }
      else if pair ∈ m.weak then Except.ok { dr with weak := dr.weak + 1 }
      else if pair ∈ m.unplayable then Except.ok { dr with unplayable := dr.unplayable + 1 }
      else Except.ok dr))

/-- The loop pairing one fixed pack against a list of others: the tuple
branch of `get_draft_result`, and also the inner loop of its list branch. -/
def anchorLoop (m : MatchSets) (a : Pack) :
    DraftResult → List Pack → Except PyErr DraftResult
  | dr, [] => Except.ok dr
  | dr, b :: rest =>
      Except.bind (tallyPair m dr a b) (fun dr2 => anchorLoop m a dr2 rest)

/-- The list branch of `get_draft_result`: each drafted pack against the
packs after it (the `number == len(drafted_packs)` break is the empty last
iteration). -/
def flatLoop (m : MatchSets) : DraftResult → List Pack → Except PyErr DraftResult
  | dr, [] => Except.ok dr
  | dr, p :: rest =>
      Except.bind (anchorLoop m p dr rest) (fun dr2 => flatLoop m dr2 rest)

/-- `DraftStrategy.get_draft_result`, dispatching on the shape of the
drafted selection. -/
def get_draft_result (m : MatchSets) : DraftSel → Except PyErr DraftResult
  | DraftSel.anchorRest a rest => anchorLoop m a ⟨0, 0, 0, 0⟩ rest
  | DraftSel.flat l => flatLoop m ⟨0, 0, 0, 0⟩ l

/-- The ordered list of (first, second) pack pairs inspected by the list
branch of `get_draft_result`: each element against the elements after it. -/
def flatPairs : List Pack → List (Pack × Pack)
  | [] => []
  | x :: xs => xs.map (fun y => (x, y)) ++ flatPairs xs

/-- The pairs a draft selection is evaluated over: anchor × rest for the
tuple shape, all position pairs i < j for the flat shape. -/
def enumeratedPairs : DraftSel → List (Pack × Pack)
  | DraftSel.anchorRest a rest => rest.map (fun y => (a, y))
  | DraftSel.flat l => flatPairs l

/-- Folding `tallyPair` over an explicit list of pairs; the reference point
for which pairs `get_draft_result` inspects. -/
def tallyAll (m : MatchSets) : DraftResult → List (Pack × Pack) → Except PyErr DraftResult
  | dr, [] => Except.ok dr
  | dr, pq :: rest =>
      Except.bind (tallyPair m dr pq.1 pq.2) (fun dr2 => tallyAll m dr2 rest)

/-- The cumulative counters of the evaluator (`TotalResults` dataclass:
only these five fields exist on it). -/
structure TotalResults where
  total_runs : Nat
  strong_or_better : Nat
  medium_or_better : Nat
  weak_or_better : Nat
  unplayable_or_better : Nat
deriving DecidableEq

/-- One iteration of `DraftStrategy.test`: run a draft, then bump
`total_runs` and each or-better counter whose Python truthiness condition
holds. -/
def testStep (m : MatchSets) (sel : DraftSel) (r : TotalResults) : Except PyErr TotalResults :=
  Except.bind (get_draft_result m sel) (fun dr =>
    Except.ok
      { total_runs := r.total_runs + 1
        strong_or_better :=
          if dr.strong ≠ 0 then r.strong_or_better + 1 else r.strong_or_better
        medium_or_better :=
          if dr.strong ≠ 0 ∨ dr.medium ≠ 0 then r.medium_or_better + 1
          else r.medium_or_better
        weak_or_better :=
          if dr.strong ≠ 0 ∨ dr.medium ≠ 0 ∨ dr.weak ≠ 0 then r.weak_or_better + 1
          else r.weak_or_better
        unplayable_or_better :=
          if dr.strong ≠ 0 ∨ dr.medium ≠ 0 ∨ dr.weak ≠ 0 ∨ dr.unplayable ≠ 0 then
            r.unplayable_or_better + 1
          else r.unplayable_or_better })

/-- The `for _ in range(T)` loop of `DraftStrategy.test`; `drafts i` is the
selection produced by the strategy's `draft` call on trial `i` (the random
source made explicit). -/
def testLoop (m : MatchSets) (drafts : Nat → DraftSel) :
    TotalResults → Nat → Nat → Except PyErr TotalResults
  | r, _, 0 => Except.ok r
  | r, i, n + 1 =>
      Except.bind (testStep m (drafts i) r) (fun r2 => testLoop m drafts r2 (i + 1) n)

/-- The trial count hard-coded in `DraftStrategy.test` (`range(100000)`). -/
def TRIAL_COUNT : Nat := 100000

/-- `DraftStrategy.test` run on a freshly constructed strategy (whose
`self.results` is an all-zero `TotalResults`), with the trial count as a
parameter; the source instantiates it at `TRIAL_COUNT`. -/
def test (m : MatchSets) (drafts : Nat → DraftSel) (T : Nat) : Except PyErr TotalResults :=
  testLoop m drafts ⟨0, 0, 0, 0, 0⟩ 0 T

/-- The attribute names read by the three chance accessors together with
the five real fields; attribute lookup on a `TotalResults` instance only
succeeds on the declared dataclass fields. -/
inductive Attr where
  | total_runs
  | strong_or_better
  | medium_or_better
  | weak_or_better
  | unplayable_or_better
  | strong
  | mediumn
  | medium
  | weak
deriving DecidableEq

/-- Python attribute lookup `self.<attr>` on a `TotalResults` instance: the
dataclass declares exactly five fields, every other name raises
AttributeError. -/
def TotalResults.getattr (r : TotalResults) : Attr → Except PyErr Nat
  | Attr.total_runs => Except.ok r.total_runs
  | Attr.strong_or_better => Except.ok r.strong_or_better
  | Attr.medium_or_better => Except.ok r.medium_or_better
  | Attr.weak_or_better => Except.ok r.weak_or_better
  | Attr.unplayable_or_better => Except.ok r.unplayable_or_better
  | _ => Except.error PyErr.attributeError

/-- `TotalResults.strong_or_better_chance`: `self.strong / self.total_runs`
(Python `/` on ints modelled exactly over `Rat`). -/
def strong_or_better_chance (r : TotalResults) : Except PyErr Rat :=
  Except.bind (r.getattr Attr.strong) (fun s =>
    Except.bind (r.getattr Attr.total_runs) (fun t =>
      Except.ok ((s : Rat) / (t : Rat))))

/-- `TotalResults.medium_or_better_chance`:
`(self.strong + self.mediumn) / self.total_runs`. -/
def medium_or_better_chance (r : TotalResults) : Except PyErr Rat :=
  Except.bind (r.getattr Attr.strong) (fun s =>
    Except.bind (r.getattr Attr.mediumn) (fun m =>
      Except.bind (r.getattr Attr.total_runs) (fun t =>
        Except.ok (((s + m : Nat) : Rat) / (t : Rat)))))

/-- `TotalResults.weak_or_better_chance`:
`(self.strong + self.medium + self.weak) / self.total_runs`. -/
def weak_or_better_chance (r : TotalResults) : Except PyErr Rat :=
  Except.bind (r.getattr Attr.strong) (fun s =>
    Except.bind (r.getattr Attr.medium) (fun m =>
      Except.bind (r.getattr Attr.weak) (fun w =>
        Except.bind (r.getattr Attr.total_runs) (fun t =>
          Except.ok (((s + m + w : Nat) : Rat) / (t : Rat))))))

/-- The `random` module as an injected oracle: `sample l k` models
`random.sample(l, k)` and `choice l` models `random.choice(l)`. -/
structure RandOracle where
  sample : List Pack → Nat → List Pack
  choice : List Pack → Pack

/-- `DrawThreeTwiceStrategy.draft`: sample three, keep the packs not among
them, pick one of the first three, sample three of the rest. -/
def drawThreeTwiceDraft (rng : RandOracle) (packs : List Pack) : Pack × List Pack :=
  let first_three := rng.sample packs 3
  let rest := packs.filter (fun pack => decide (pack ∉ first_three))
  let first_pick := rng.choice first_three
  let second_three := rng.sample rest 3
  (first_pick, second_three)

/-- A deterministic random oracle for witnesses: sampling takes a prefix
and choice takes the head. -/
def takeOracle : RandOracle :=
  ⟨fun l k => l.take k, fun l => l.headD packA⟩

/-- An empty match index, as the module-level sets are before `initialize`. -/
def emptyMatches : MatchSets :=
  ⟨∅, ∅, ∅, ∅⟩

/-- A draft sequence whose every trial selects nothing. -/
def noDrafts : Nat → DraftSel :=
  fun _ => DraftSel.flat []

/-- A concrete `TotalResults` value with a positive trial count. -/
def sampleResults : TotalResults :=
  ⟨10, 4, 6, 8, 10⟩

/-- Six distinct packs, enough for a DrawThreeTwice draft. -/
def packs6 : List Pack :=
  [packA, packB, packC, packD, packE, packF]

theorem matching_types_comm (a b : Pack) : matching_types a b = matching_types b a := by
  ext t
  simp only [matching_types, Finset.mem_filter]
  tauto

theorem matching_colours_comm (a b : Pack) : matching_colours a b = matching_colours b a := by
  ext c
  simp only [matching_colours, Finset.mem_filter]
  tauto

theorem synergistic_types_comm (a b : Pack) (S : Finset (Finset CreatureType)) :
    synergistic_types a b S = synergistic_types b a S := by
  simp only [synergistic_types]
  exact Finset.filter_comm _ _ _

/-- C1: `pair_playability` follows the spec's decision table: with a shared
colour the verdict is Strong on any type/synergy overlap, else Medium for
max colour count 1 and Weak otherwise; with no shared colour, an overlap
gives Medium (max colour count 1) or Weak, and no overlap gives Weak (max
colour count 1) or Unplayable. -/
theorem pair_playability_table (a b : Pack) (S : Finset (Finset CreatureType)) :
    ((matching_colours a b).Nonempty →
      (((matching_types a b).Nonempty ∨ (synergistic_types a b S).Nonempty) →
        pair_playability a b S = Playability.STRONG) ∧
      (¬((matching_types a b).Nonempty ∨ (synergistic_types a b S).Nonempty) →
        (max a.colours.card b.colours.card = 1 →
          pair_playability a b S = Playability.MEDIUM) ∧
        (max a.colours.card b.colours.card ≠ 1 →
          pair_playability a b S = Playability.WEAK)))
    ∧ (¬(matching_colours a b).Nonempty →
      (((matching_types a b).Nonempty ∨ (synergistic_types a b S).Nonempty) →
        (max a.colours.card b.colours.card = 1 →
          pair_playability a b S = Playability.MEDIUM) ∧
        (max a.colours.card b.colours.card ≠ 1 →
          pair_playability a b S = Playability.WEAK)) ∧
      (¬((matching_types a b).Nonempty ∨ (synergistic_types a b S).Nonempty) →
        (max a.colours.card b.colours.card = 1 →
          pair_playability a b S = Playability.WEAK) ∧
        (max a.colours.card b.colours.card ≠ 1 →
          pair_playability a b S = Playability.UNPLAYABLE))) := by
  unfold pair_playability
  split_ifs with h1 h2 h3 h4 h5 h6 <;> simp_all

/-- Witness for C1: two single-colour white Bird packs share a colour and a
type, so the table's first row gives Strong. -/
theorem pair_playability_table_witness :
    pair_playability packA packA ∅ = Playability.STRONG :=
  ((pair_playability_table packA packA ∅).1 (by decide)).1 (by decide)

/-- C2: `pair_playability` is symmetric in its two pack arguments. -/
theorem pair_playability_symm (a b : Pack) (S : Finset (Finset CreatureType)) :
    pair_playability a b S = pair_playability b a S := by
  unfold pair_playability
  rw [matching_colours_comm, matching_types_comm, synergistic_types_comm,
    Nat.max_comm a.colours.card b.colours.card]

/-- C3: membership in `synergistic_types a b S`: exactly the pairs of `S`
having at least one element among `b`'s creature types and at least one
element among `a`'s creature types (a single shared type may satisfy both). -/
theorem synergistic_types_spec (a b : Pack) (S : Finset (Finset CreatureType))
    (tp : Finset CreatureType) :
    tp ∈ synergistic_types a b S ↔
      tp ∈ S ∧ (∃ t ∈ tp, t ∈ b.creature_types) ∧ (∃ t ∈ tp, t ∈ a.creature_types) := by
  simp only [synergistic_types, Finset.mem_filter]
  tauto

theorem packStr_of_nonempty (p : Pack) (h : p.colours.Nonempty) :
    packStr p = Except.error PyErr.typeError := by
  unfold packStr joinColours
  rw [if_neg (Finset.nonempty_iff_ne_empty.mp h)]
  rfl

theorem recordPair_error (S : Finset (Finset CreatureType)) (st : MatchSets) (p1 p2 : Pack)
    (h : p1.colours.Nonempty) : recordPair S st p1 p2 = Except.error PyErr.typeError := by
  have hp := packStr_of_nonempty p1 h
  unfold recordPair addIf
  cases hpl : pair_playability p1 p2 S <;> simp [hp, Except.bind]

/-- C10: a pack with a non-empty colour set cannot be displayed — `str.join`
is applied to `Colour` enum members, raising TypeError — and consequently
`initialize` (the match-index builder) and `get_draft_result` (the index
query) fail with TypeError on the first pair they label. -/
theorem display_label_typeerror :
    (∀ p : Pack, p.colours.Nonempty → packStr p = Except.error PyErr.typeError) ∧
    (∀ p1 p2 : Pack, ∀ ps : List Pack, p1.colours.Nonempty →
      buildMatchIndex (p1 :: p2 :: ps) = Except.error PyErr.typeError) ∧
    (∀ (m : MatchSets) (a b : Pack) (rest : List Pack), a.colours.Nonempty →
      get_draft_result m (DraftSel.anchorRest a (b :: rest)) = Except.error PyErr.typeError) := by
  refine ⟨packStr_of_nonempty, fun p1 p2 ps h => ?_, fun m a b rest h => ?_⟩
  · show Except.map _ (pairLoop (buildSynergy (p1 :: p2 :: ps)) ⟨∅, ∅, ∅, ∅⟩ (p1 :: p2 :: ps)) =
      Except.error PyErr.typeError
    unfold pairLoop recordLoop
    rw [recordPair_error _ _ _ _ h]
    rfl
  · unfold get_draft_result anchorLoop tallyPair
    rw [packStr_of_nonempty a h]
    rfl

/-- Witness for C10 at concrete inputs: a single white pack, a two-pack
collection, and a one-pair draft selection. -/
theorem display_label_typeerror_witness :
    packStr packA = Except.error PyErr.typeError ∧
    buildMatchIndex [packA, packB] = Except.error PyErr.typeError ∧
    get_draft_result emptyMatches (DraftSel.anchorRest packA [packB]) =
      Except.error PyErr.typeError :=
  ⟨display_label_typeerror.1 packA (by decide),
    display_label_typeerror.2.1 packA packB [] (by decide),
    display_label_typeerror.2.2 emptyMatches packA packB [] (by decide)⟩

/-- C4: evaluating the match-index builder on a two-pack collection (both
packs coloured, as the data model requires): it raises TypeError while
labelling the first pair, so the index never holds its n·(n-1)/2 entries. -/
theorem matchIndex_build_crashes :
    buildMatchIndex [packA, packB] = Except.error PyErr.typeError := by
  show Except.map (fun st => (st, buildSynergy [packA, packB]))
      (pairLoop (buildSynergy [packA, packB]) ⟨∅, ∅, ∅, ∅⟩ [packA, packB]) =
    Except.error PyErr.typeError
  unfold pairLoop recordLoop
  rw [recordPair_error _ _ _ _ (by decide)]
  rfl

theorem anchorLoop_eq_tallyAll (m : MatchSets) (a : Pack) :
    ∀ (rest : List Pack) (dr : DraftResult),
      anchorLoop m a dr rest = tallyAll m dr (rest.map (fun y => (a, y))) := by
  intro rest
  induction rest with
  | nil => intro dr; rfl
  | cons b rest ih =>
      intro dr
      simp only [anchorLoop, List.map_cons, tallyAll]
      cases tallyPair m dr a b with
      | error e => rfl
      | ok dr2 => exact ih dr2

theorem tallyAll_append (m : MatchSets) :
    ∀ (l1 l2 : List (Pack × Pack)) (dr : DraftResult),
      tallyAll m dr (l1 ++ l2) =
        Except.bind (tallyAll m dr l1) (fun d => tallyAll m d l2) := by
  intro l1
  induction l1 with
  | nil => intro l2 dr; rfl
  | cons pq l1 ih =>
      intro l2 dr
      simp only [List.cons_append, tallyAll]
      cases tallyPair m dr pq.1 pq.2 with
      | error e => rfl
      | ok dr2 => exact ih l2 dr2

theorem flatLoop_eq_tallyAll (m : MatchSets) :
    ∀ (l : List Pack) (dr : DraftResult), flatLoop m dr l = tallyAll m dr (flatPairs l) := by
  intro l
  induction l with
  | nil => intro dr; rfl
  | cons x xs ih =>
      intro dr
      simp only [flatLoop, flatPairs, tallyAll_append, anchorLoop_eq_tallyAll]
      cases tallyAll m dr (xs.map (fun y => (x, y))) with
      | error e => rfl
      | ok dr2 => exact ih dr2

theorem flatPairs_length : ∀ l : List Pack, (flatPairs l).length = Nat.choose l.length 2 := by
  intro l
  induction l with
  | nil => rfl
  | cons x xs ih =>
      simp only [flatPairs, List.length_append, List.length_map, ih, List.length_cons,
        Nat.choose_succ_succ, Nat.choose_one_right]

theorem flatPairs_subset (p q : Pack) :
    ∀ l : List Pack, (p, q) ∈ flatPairs l → p ∈ l ∧ q ∈ l := by
  intro l
  induction l with
  | nil => simp [flatPairs]
  | cons x xs ih =>
      intro h
      rcases List.mem_append.mp h with hmap | hrec
      · rcases List.mem_map.mp hmap with ⟨y, hy, heq⟩
        rcases Prod.mk.injEq .. ▸ heq with ⟨h1, h2⟩
        subst h1; subst h2
        exact ⟨List.mem_cons_self x xs, List.mem_cons_of_mem x hy⟩
      · rcases ih hrec with ⟨h1, h2⟩
        exact ⟨List.mem_cons_of_mem x h1, List.mem_cons_of_mem x h2⟩

theorem flatPairs_ne (p q : Pack) :
    ∀ l : List Pack, l.Nodup → (p, q) ∈ flatPairs l → p ≠ q := by
  intro l
  induction l with
  | nil => simp [flatPairs]
  | cons x xs ih =>
      intro hnd h
      rcases List.nodup_cons.mp hnd with ⟨hx, hxs⟩
      rcases List.mem_append.mp h with hmap | hrec
      · rcases List.mem_map.mp hmap with ⟨y, hy, heq⟩
        rcases Prod.mk.injEq .. ▸ heq with ⟨h1, h2⟩
        subst h1; subst h2
        intro hpq
        exact hx (hpq ▸ hy)
      · exact ih hxs hrec

theorem flatPairs_complete (p q : Pack) :
    ∀ l : List Pack, p ∈ l → q ∈ l → p ≠ q →
      (p, q) ∈ flatPairs l ∨ (q, p) ∈ flatPairs l := by
  intro l
  induction l with
  | nil => simp
  | cons x xs ih =>
      intro hp hq hne
      rcases List.mem_cons.mp hp with rfl | hp2
      · have hq2 : q ∈ xs := by
          rcases List.mem_cons.mp hq with rfl | hq2
          · exact absurd rfl hne
          · exact hq2
        exact Or.inl (List.mem_append.mpr (Or.inl (List.mem_map.mpr ⟨q, hq2, rfl⟩)))
      · rcases List.mem_cons.mp hq with rfl | hq2
        · exact Or.inr (List.mem_append.mpr (Or.inl (List.mem_map.mpr ⟨p, hp2, rfl⟩)))
        · rcases ih hp2 hq2 hne with h | h
          · exact Or.inl (List.mem_append.mpr (Or.inr h))
          · exact Or.inr (List.mem_append.mpr (Or.inr h))

/-- C6: the evaluator folds the verdict lookup over exactly the enumerated
pairs of the selection: for an `(anchor, rest)` tuple these are the pairs
crossing the anchor with each rest member (and nothing else, in particular
no pairs among the rest); for a flat list of k packs they are the
C(k,2) position pairs, which for distinct packs are exactly the unordered
pairs of chosen packs. -/
theorem draft_pair_enumeration :
    (∀ (m : MatchSets) (sel : DraftSel),
      get_draft_result m sel = tallyAll m ⟨0, 0, 0, 0⟩ (enumeratedPairs sel)) ∧
    (∀ (a : Pack) (rest : List Pack),
      enumeratedPairs (DraftSel.anchorRest a rest) = rest.map (fun y => (a, y))) ∧
    (∀ l : List Pack,
      (enumeratedPairs (DraftSel.flat l)).length = Nat.choose l.length 2) ∧
    (∀ l : List Pack, l.Nodup → ∀ p q : Pack,
      ((p, q) ∈ enumeratedPairs (DraftSel.flat l) ∨
          (q, p) ∈ enumeratedPairs (DraftSel.flat l)) ↔
        (p ∈ l ∧ q ∈ l ∧ p ≠ q)) := by
  refine ⟨fun m sel => ?_, fun a rest => rfl, fun l => flatPairs_length l,
    fun l hnd p q => ⟨fun h => ?_, fun h => ?_⟩⟩
  · cases sel with
    | flat l => exact flatLoop_eq_tallyAll m l ⟨0, 0, 0, 0⟩
    | anchorRest a rest => exact anchorLoop_eq_tallyAll m a rest ⟨0, 0, 0, 0⟩
  · rcases h with h | h
    · rcases flatPairs_subset p q l h with ⟨h1, h2⟩
      exact ⟨h1, h2, flatPairs_ne p q l hnd h⟩
    · rcases flatPairs_subset q p l h with ⟨h1, h2⟩
      exact ⟨h2, h1, fun hpq => flatPairs_ne q p l hnd h hpq.symm⟩
  · exact flatPairs_complete p q l h.1 h.2.1 h.2.2

/-- Witness for C6 on the two-pack flat selection `[packA, packB]`. -/
theorem draft_pair_enumeration_witness :
    ((packA, packB) ∈ enumeratedPairs (DraftSel.flat [packA, packB]) ∨
        (packB, packA) ∈ enumeratedPairs (DraftSel.flat [packA, packB])) ↔
      (packA ∈ [packA, packB] ∧ packB ∈ [packA, packB] ∧ packA ≠ packB) :=
  draft_pair_enumeration.2.2.2 [packA, packB] (by decide) packA packB

/-- C9 counterexample: a pair of (labelable) packs evaluated against a
match index that never indexed them is silently skipped — the evaluator
returns all-zero counters and raises neither possible error, contradicting
the claim that a lookup miss is a fatal internal-consistency error. -/
theorem lookup_miss_silently_skipped :
    get_draft_result emptyMatches (DraftSel.anchorRest packE [packF]) =
        Except.ok ⟨0, 0, 0, 0⟩ ∧
    get_draft_result emptyMatches (DraftSel.anchorRest packE [packF]) ≠
        Except.error PyErr.typeError ∧
    get_draft_result emptyMatches (DraftSel.anchorRest packE [packF]) ≠
        Except.error PyErr.attributeError := by
  have h : get_draft_result emptyMatches (DraftSel.anchorRest packE [packF]) =
      Except.ok ⟨0, 0, 0, 0⟩ := by rfl
  refine ⟨h, ?_, ?_⟩ <;> rw [h] <;> exact fun hc => Except.noConfusion hc

/-- C9 (amended): a pair requested from the match index that was never
indexed is silently skipped — provided its two packs label successfully,
the lookup step returns the counters unchanged and raises no error; it is
neither counted under a default verdict nor reported. -/
theorem lookup_miss_skips (m : MatchSets) (dr : DraftResult) (p1 p2 : Pack)
    (l1 l2 : String) (h1 : packStr p1 = Except.ok l1) (h2 : packStr p2 = Except.ok l2)
    (hs : ({l1, l2} : Finset String) ∉ m.strong)
    (hm : ({l1, l2} : Finset String) ∉ m.medium)
    (hw : ({l1, l2} : Finset String) ∉ m.weak)
    (hu : ({l1, l2} : Finset String) ∉ m.unplayable) :
    tallyPair m dr p1 p2 = Except.ok dr := by
  unfold tallyPair
  rw [h1, h2]
  simp [hs, hm, hw, hu, Except.bind]

/-- Witness for the amended C9 at concrete inputs. -/
theorem lookup_miss_skips_witness :
    tallyPair emptyMatches ⟨0, 0, 0, 0⟩ packE packF = Except.ok ⟨0, 0, 0, 0⟩ :=
  lookup_miss_skips emptyMatches ⟨0, 0, 0, 0⟩ packE packF (" E") (" F")
    (by rfl) (by rfl) (by decide) (by decide) (by decide) (by decide)

theorem testStep_counts {m : MatchSets} {sel : DraftSel} {r r2 : TotalResults}
    (h : testStep m sel r = Except.ok r2) :
    r2.total_runs = r.total_runs + 1 ∧
    (r.strong_or_better ≤ r.medium_or_better ∧ r.medium_or_better ≤ r.weak_or_better ∧
        r.weak_or_better ≤ r.unplayable_or_better ∧ r.unplayable_or_better ≤ r.total_runs →
      r2.strong_or_better ≤ r2.medium_or_better ∧ r2.medium_or_better ≤ r2.weak_or_better ∧
        r2.weak_or_better ≤ r2.unplayable_or_better ∧ r2.unplayable_or_better ≤ r2.total_runs) := by
  unfold testStep at h
  cases hg : get_draft_result m sel with
  | error e => rw [hg] at h; exact absurd h (by simp [Except.bind])
  | ok dr =>
      rw [hg] at h
      simp only [Except.bind, Except.ok.injEq] at h
      subst h
      refine ⟨rfl, fun hch => ?_⟩
      simp only []
      split_ifs <;> omega

theorem testLoop_counts {m : MatchSets} {drafts : Nat → DraftSel} :
    ∀ (n i : Nat) (r0 r : TotalResults), testLoop m drafts r0 i n = Except.ok r →
      r.total_runs = r0.total_runs + n ∧
      (r0.strong_or_better ≤ r0.medium_or_better ∧ r0.medium_or_better ≤ r0.weak_or_better ∧
          r0.weak_or_better ≤ r0.unplayable_or_better ∧ r0.unplayable_or_better ≤ r0.total_runs →
        r.strong_or_better ≤ r.medium_or_better ∧ r.medium_or_better ≤ r.weak_or_better ∧
          r.weak_or_better ≤ r.unplayable_or_better ∧ r.unplayable_or_better ≤ r.total_runs) := by
  intro n
  induction n with
  | zero =>
      intro i r0 r h
      unfold testLoop at h
      simp only [Except.ok.injEq] at h
      subst h
      exact ⟨rfl, fun hch => hch⟩
  | succ k ih =>
      intro i r0 r h
      unfold testLoop at h
      cases hs : testStep m (drafts i) r0 with
      | error e => rw [hs] at h; exact absurd h (by simp [Except.bind])
      | ok r1 =>
          rw [hs] at h
          simp only [Except.bind] at h
          obtain ⟨ht1, hc1⟩ := testStep_counts hs
          obtain ⟨ht2, hc2⟩ := ih (i + 1) r1 r h
          exact ⟨by omega, fun hch => hc2 (hc1 hch)⟩

/-- C5: whenever `DraftStrategy.test` completes with trial count T (the
source fixes T = TRIAL_COUNT = 100000), the reported results satisfy
`total_runs = T` and the cumulative counters are monotone:
strong ≤ medium ≤ weak ≤ unplayable or-better ≤ total_runs. -/
theorem test_counters (m : MatchSets) (drafts : Nat → DraftSel) (T : Nat)
    (r : TotalResults) (h : test m drafts T = Except.ok r) :
    r.total_runs = T ∧
    r.strong_or_better ≤ r.medium_or_better ∧ r.medium_or_better ≤ r.weak_or_better ∧
    r.weak_or_better ≤ r.unplayable_or_better ∧ r.unplayable_or_better ≤ r.total_runs := by
  obtain ⟨ht, hc⟩ := testLoop_counts T 0 ⟨0, 0, 0, 0, 0⟩ r h
  have hch := hc ⟨Nat.le_refl 0, Nat.le_refl 0, Nat.le_refl 0, Nat.le_refl 0⟩
  exact ⟨by simpa using ht, hch⟩

/-- Witness for C5: an empty-draft run of two trials reports two runs and
all-zero counters. -/
theorem test_counters_witness :
    (⟨2, 0, 0, 0, 0⟩ : TotalResults).total_runs = 2 ∧
    (⟨2, 0, 0, 0, 0⟩ : TotalResults).strong_or_better ≤
      (⟨2, 0, 0, 0, 0⟩ : TotalResults).medium_or_better ∧
    (⟨2, 0, 0, 0, 0⟩ : TotalResults).medium_or_better ≤
      (⟨2, 0, 0, 0, 0⟩ : TotalResults).weak_or_better ∧
    (⟨2, 0, 0, 0, 0⟩ : TotalResults).weak_or_better ≤
      (⟨2, 0, 0, 0, 0⟩ : TotalResults).unplayable_or_better ∧
    (⟨2, 0, 0, 0, 0⟩ : TotalResults).unplayable_or_better ≤
      (⟨2, 0, 0, 0, 0⟩ : TotalResults).total_runs :=
  test_counters emptyMatches noDrafts 2 ⟨2, 0, 0, 0, 0⟩ (by rfl)

/-- C8: evaluating the three chance accessors on a concrete `TotalResults`
with positive `total_runs`: each raises AttributeError, because they read
`self.strong`, `self.mediumn`, `self.medium`, `self.weak` — none of which
is a field of the dataclass — instead of dividing the or-better counters
by `total_runs`. -/
theorem chance_accessors_attributeerror :
    strong_or_better_chance sampleResults = Except.error PyErr.attributeError ∧
    medium_or_better_chance sampleResults = Except.error PyErr.attributeError ∧
    weak_or_better_chance sampleResults = Except.error PyErr.attributeError :=
  ⟨rfl, rfl, rfl⟩

/-- C7: whatever the random outcomes, a `DrawThreeTwiceStrategy.draft`
result has its anchor among the first three sampled packs, and its
second three are three distinct packs disjoint from the first three (in
particular the anchor is not among them).  The hypotheses are the
`random.sample`/`random.choice` contracts at the two call sites. -/
theorem drawThreeTwice_props (rng : RandOracle) (packs : List Pack)
    (hchoice : rng.choice (rng.sample packs 3) ∈ rng.sample packs 3)
    (hlen :
      (rng.sample (packs.filter (fun pack => decide (pack ∉ rng.sample packs 3))) 3).length = 3)
    (hnd :
      (rng.sample (packs.filter (fun pack => decide (pack ∉ rng.sample packs 3))) 3).Nodup)
    (hsub : ∀ x ∈ rng.sample (packs.filter (fun pack => decide (pack ∉ rng.sample packs 3))) 3,
      x ∈ packs.filter (fun pack => decide (pack ∉ rng.sample packs 3))) :
    (drawThreeTwiceDraft rng packs).1 ∈ rng.sample packs 3 ∧
    (drawThreeTwiceDraft rng packs).2.length = 3 ∧
    (drawThreeTwiceDraft rng packs).2.Nodup ∧
    (∀ x ∈ (drawThreeTwiceDraft rng packs).2, x ∉ rng.sample packs 3) ∧
    (drawThreeTwiceDraft rng packs).1 ∉ (drawThreeTwiceDraft rng packs).2 := by
  have hdisj : ∀ x ∈ (drawThreeTwiceDraft rng packs).2, x ∉ rng.sample packs 3 := by
    intro x hx
    have hmem := hsub x hx
    have := (List.mem_filter.mp hmem).2
    simpa using this
  refine ⟨hchoice, hlen, hnd, hdisj, fun hmem => ?_⟩
  exact hdisj _ hmem hchoice

/-- Witness for C7: the deterministic prefix oracle over six distinct packs. -/
theorem drawThreeTwice_props_witness :
    (drawThreeTwiceDraft takeOracle packs6).1 ∈ takeOracle.sample packs6 3 ∧
    (drawThreeTwiceDraft takeOracle packs6).2.length = 3 ∧
    (drawThreeTwiceDraft takeOracle packs6).2.Nodup ∧
    (∀ x ∈ (drawThreeTwiceDraft takeOracle packs6).2, x ∉ takeOracle.sample packs6 3) ∧
    (drawThreeTwiceDraft takeOracle packs6).1 ∉ (drawThreeTwiceDraft takeOracle packs6).2 :=
  drawThreeTwice_props takeOracle packs6 (by decide) (by decide) (by decide) (by decide)
